import Mathlib

/-!
# Verification of the LeqoeHunt push-notification client

Shallow embedding of `src/www/js/push-notifications.js`.  The JavaScript class
`LeqoeHuntNotifications` is modelled as a state record (`ClientState`) together
with pure functions that mirror its methods.  Every ambient interaction (the
Capacitor plugin, `fetch`, `localStorage`, the DOM, `window.location`) is made
explicit: inputs the environment supplies are gathered in environment records,
and outputs are recorded as an ordered `List Effect` trace.  JavaScript
exceptions are modelled with `Except JsError`.
-/

namespace LeqoeHunt

/-- A JavaScript exception: either the `TypeError` raised by reading a property
of `undefined`, or an arbitrary thrown/rejected value from the environment. -/
inductive JsError where
  | typeError
  | thrown (msg : String)
deriving DecidableEq, Repr

/-- JSON body of the POST to `/api/push-token`, as built in `sendTokenToServer`.
`user_id` is `Option String`, `none` standing for JSON `null`. -/
structure TokenPayload where
  device_token : String
  platform : String
  app_version : String
  user_id : Option String
  timestamp : String
deriving DecidableEq, Repr

/-- JSON body of the POST to `/api/notification-analytics`, as built in
`trackNotificationEvent`.  `none` stands for an absent/undefined field. -/
structure AnalyticsPayload where
  action : String
  notification_id : Option String
  type : Option String
  timestamp : String
  device_token : Option String
deriving DecidableEq, Repr

/-- Observable side effects of the client, in program order. -/
inductive Effect where
  | log (msg : String)
  | warn (msg : String)
  | errorLog (msg : String)
  | checkPermissionsCall
  | requestPermissionsCall
  | registerCall
  | addListenerCall (event : String)
  | postToken (url : String) (body : TokenPayload)
  | postAnalytics (url : String) (body : AnalyticsPayload)
  | navigate (url : String)
  | banner (title body : Option String)
  | injectStyles
  | scheduleTimeout (ms : Nat)
deriving DecidableEq, Repr

/-- The mutable fields of the `LeqoeHuntNotifications` object. -/
structure ClientState where
  isInitialized : Bool
  deviceToken : Option String
deriving DecidableEq, Repr

/-- The constructor: `this.isInitialized = false; this.deviceToken = null`. -/
def mkClientState : ClientState :=
  { isInitialized := false, deviceToken := none }

/-- `getDeviceToken()`. -/
def getDeviceToken (s : ClientState) : Option String :=
  s.deviceToken

/-- `isReady()`. -/
def isReady (s : ClientState) : Bool :=
  s.isInitialized

/-- JavaScript template-literal coercion of a possibly-undefined string:
an absent value renders as the string `"undefined"`. -/
def jsStr : Option String → String
  | some s => s
  | none => "undefined"

/-- JavaScript `x || null` applied to a possibly-undefined string field:
an absent value and the falsy empty string both become `null` (`none`). -/
def jsOrNull : Option String → Option String
  | some s => if s = "" then none else some s
  | none => none

/-- The `data` map of a notification payload; fields the sender may omit are
`Option`s. -/
structure NotifData where
  type : Option String
  kedai_id : Option String
  challenge_id : Option String
  promo_id : Option String
  notification_id : Option String
deriving DecidableEq, Repr

/-- A push notification as delivered by the plugin: `title`, `body`, `data`.
`data` itself may be `undefined` on an action event, hence `Option`. -/
structure PushNotificationSchema where
  title : Option String
  body : Option String
  data : Option NotifData
deriving DecidableEq, Repr

/-- The argument of a `pushNotificationActionPerformed` listener: a wrapper
holding the tapped notification. -/
structure ActionPerformed where
  notification : PushNotificationSchema
deriving DecidableEq, Repr

/-- What `localStorage.getItem || sessionStorage.getItem` plus `JSON.parse`
can yield for the `leqoehunt_user` key: nothing stored, a stored string on
which `JSON.parse` throws, or a parsed value whose `userId` field is the given
possibly-absent string. -/
inductive StoredUser where
  | absent
  | malformed
  | parsed (userId : Option String)
deriving DecidableEq, Repr

/-- Result object of `getUserInfo()`. -/
structure UserInfo where
  userId : Option String
deriving DecidableEq, Repr

/-- `getUserInfo()`: reads the stored user record; a parse failure is caught
and logged as a warning; absence falls through silently.  Both failure paths
return `{ userId: null }`. -/
def getUserInfo : StoredUser → UserInfo × List Effect
  | StoredUser.absent => ({ userId := none }, [])
  | StoredUser.malformed =>
      ({ userId := none }, [Effect.warn "Could not parse user info:"])
  | StoredUser.parsed uid => ({ userId := uid }, [])

/-- Ambient inputs of `sendTokenToServer`: the stored user record, the clock
(`new Date().toISOString()`), and the outcome of the `fetch` to the token
endpoint (`ok` status, or a thrown/rejected error). -/
structure SendEnv where
  stored : StoredUser
  now : String
  tokenFetch : Except JsError Bool
deriving Repr

/-- URL of the token endpoint. -/
def pushTokenURL : String := "https://leqoehunt.my/api/push-token"

/-- URL of the analytics endpoint. -/
def analyticsURL : String := "https://leqoehunt.my/api/notification-analytics"

/-- `sendTokenToServer(token)`: builds the fixed payload, POSTs it, and logs
the outcome; any error is caught and logged. -/
def sendTokenToServer (env : SendEnv) (token : String) : List Effect :=
  let gi := getUserInfo env.stored
  let payload : TokenPayload :=
    { device_token := token
      platform := "android"
      app_version := "1.0.0"
      user_id := jsOrNull gi.fst.userId
      timestamp := env.now }
  let post := Effect.postToken pushTokenURL payload
  match env.tokenFetch with
  | Except.error _ =>
      gi.snd ++ [post, Effect.errorLog "Error sending token to server:"]
  | Except.ok true =>
      gi.snd ++ [post, Effect.log "✅ Device token registered with LeqoeHunt server"]
  | Except.ok false =>
      gi.snd ++ [post, Effect.warn "Failed to register token with server:"]

/-- The `registration` listener: logs, stores the token in `deviceToken`, and
calls `sendTokenToServer`. -/
def onRegistration (env : SendEnv) (s : ClientState) (tokenValue : String) :
    ClientState × List Effect :=
  let s2 := { s with deviceToken := some tokenValue }
  (s2, Effect.log "Push registration success, token: " :: sendTokenToServer env tokenValue)

/-- The `registrationError` listener: logs the error, touches no state. -/
def onRegistrationError : List Effect :=
  [Effect.errorLog "Registration error: "]

/-- Ambient inputs of the two notification handlers: the clock, the outcome of
the analytics `fetch`, and whether the banner style sheet is already in the
document. -/
structure HandlerEnv where
  now : String
  analyticsFetch : Except JsError Unit
  stylesPresent : Bool
deriving Repr

/-- `trackNotificationEvent(action, notification)`: fire-and-forget analytics
POST; a rejected fetch is caught and logged as a warning. -/
def trackNotificationEvent (env : HandlerEnv) (s : ClientState) (action : String)
    (n : PushNotificationSchema) : List Effect :=
  let payload : AnalyticsPayload :=
    { action := action
      notification_id := n.data.bind (fun d => d.notification_id)
      type := n.data.bind (fun d => d.type)
      timestamp := env.now
      device_token := s.deviceToken }
  match env.analyticsFetch with
  | Except.error _ =>
      [Effect.postAnalytics analyticsURL payload, Effect.warn "Analytics tracking failed:"]
  | Except.ok _ => [Effect.postAnalytics analyticsURL payload]

/-- `showInAppNotification`: injects the style sheet if missing, appends the
banner element (which interpolates the title and body), and schedules its
removal after 5000 ms. -/
def showInAppNotification (stylesPresent : Bool) (title body : Option String) :
    List Effect :=
  (if stylesPresent then [] else [Effect.injectStyles]) ++
    [Effect.banner title body, Effect.scheduleTimeout 5000]

/-- The `pushNotificationReceived` handler: shows the in-app banner, then
tracks a `received` analytics event.  It never writes the client state. -/
def handleNotificationReceived (env : HandlerEnv) (s : ClientState)
    (n : PushNotificationSchema) : List Effect :=
  showInAppNotification env.stylesPresent n.title n.body ++
    trackNotificationEvent env s "received" n

/-- The navigation target chosen by the `switch` in `handleNotificationTapped`,
given a present `data` object.  `if (data.type)` is a JavaScript truthiness
test, so an empty-string `type` also falls to the home URL. -/
def routeFor (d : NotifData) : String :=
  match d.type with
  | some t =>
      if t = "" then "https://leqoehunt.my/"
      else if t = "kedai_verification" then
        "https://leqoehunt.my/kedai/" ++ jsStr d.kedai_id
      else if t = "photohunt_challenge" then
        "https://leqoehunt.my/photohunt/" ++ jsStr d.challenge_id
      else if t = "business_update" then "https://leqoehunt.my/dashboard"
      else if t = "promotional" then
        "https://leqoehunt.my/promo/" ++ jsStr d.promo_id
      else "https://leqoehunt.my/"
  | none => "https://leqoehunt.my/"

/-- The `pushNotificationActionPerformed` handler: reads
`notification.notification.data` — a `TypeError` if `data` is `undefined` —
then navigates by `data.type` and tracks an `opened` analytics event.  It never
writes the client state. -/
def handleNotificationTapped (env : HandlerEnv) (s : ClientState)
    (ev : ActionPerformed) : Except JsError Unit × List Effect :=
  match ev.notification.data with
  | none => (Except.error JsError.typeError, [])
  | some d =>
      (Except.ok (),
        Effect.navigate (routeFor d) ::
          trackNotificationEvent env s "opened" ev.notification)

/-- Ambient inputs of `initialize()`: the platform check and the outcome of
each awaited plugin call.  `addListenerRes` gives the outcome of
`addListener` per event name. -/
structure InitEnv where
  isNative : Bool
  checkPerm : Except JsError String
  requestPerm : Except JsError String
  registerRes : Except JsError Unit
  addListenerRes : String → Except JsError Unit

/-- The four listener registrations of `initialize()`, in program order. -/
def listenerEvents : List String :=
  ["registration", "registrationError", "pushNotificationReceived",
    "pushNotificationActionPerformed"]

/-- Sequentially awaits `addListener` for each named event, stopping at the
first failure.  Returns whether all succeeded, and the calls made. -/
def attachListeners (res : String → Except JsError Unit) :
    List String → Bool × List Effect
  | [] => (true, [])
  | name :: rest =>
      match res name with
      | Except.error _ => (false, [Effect.addListenerCall name])
      | Except.ok _ =>
          let r := attachListeners res rest
          (r.fst, Effect.addListenerCall name :: r.snd)

/-- `initialize()` (named `initClient` here): bail out on a non-native
platform; check and possibly request permission; abort with a warning when not
granted; register; attach the four listeners; set `isInitialized`.  Any thrown
error is caught at the top level and logged. -/
def initClient (env : InitEnv) (s : ClientState) : ClientState × List Effect :=
  if env.isNative = false then
    (s, [Effect.log "Push notifications not available on web platform"])
  else
    match env.checkPerm with
    | Except.error _ =>
        (s, [Effect.checkPermissionsCall,
             Effect.errorLog "Failed to initialize push notifications:"])
    | Except.ok r0 =>
        let pre : List Effect :=
          if r0 = "prompt" then
            [Effect.checkPermissionsCall, Effect.requestPermissionsCall]
          else [Effect.checkPermissionsCall]
        match (if r0 = "prompt" then env.requestPerm else Except.ok r0) with
        | Except.error _ =>
            (s, pre ++ [Effect.errorLog "Failed to initialize push notifications:"])
        | Except.ok r =>
            if r = "granted" then
              match env.registerRes with
              | Except.error _ =>
                  (s, pre ++ [Effect.registerCall,
                    Effect.errorLog "Failed to initialize push notifications:"])
              | Except.ok _ =>
                  let al := attachListeners env.addListenerRes listenerEvents
                  if al.fst then
                    ({ s with isInitialized := true },
                      pre ++ [Effect.registerCall] ++ al.snd ++
                        [Effect.log "✅ LeqoeHunt Push Notifications initialized successfully"])
                  else
                    (s, pre ++ [Effect.registerCall] ++ al.snd ++
                      [Effect.errorLog "Failed to initialize push notifications:"])
            else
              (s, pre ++ [Effect.warn "Push notification permission denied"])

/-- The permission state `initialize()` acts on: the result of
`checkPermissions`, replaced by the result of `requestPermissions` when the
first reports `"prompt"`. -/
def resolvedPerm (env : InitEnv) : Except JsError String :=
  match env.checkPerm with
  | Except.error e => Except.error e
  | Except.ok r0 => if r0 = "prompt" then env.requestPerm else Except.ok r0

/-- Whether every awaited step of `initialize()` succeeds with permission
granted: native platform, permissions resolve to `granted`, `register`
succeeds, and every `addListener` succeeds. -/
def initSuccess (env : InitEnv) : Bool :=
  env.isNative &&
    (match resolvedPerm env with
     | Except.error _ => false
     | Except.ok r =>
         (r = "granted" : Bool) &&
           (match env.registerRes with
            | Except.error _ => false
            | Except.ok _ => (attachListeners env.addListenerRes listenerEvents).fst))

/-- Projects a token-endpoint POST out of an effect. -/
def tokenPostOf : Effect → Option (String × TokenPayload)
  | Effect.postToken u p => some (u, p)
  | _ => none

/-- Projects an analytics POST out of an effect. -/
def analyticsPostOf : Effect → Option (String × AnalyticsPayload)
  | Effect.postAnalytics u p => some (u, p)
  | _ => none

/-- Projects a navigation out of an effect. -/
def navOf : Effect → Option String
  | Effect.navigate u => some u
  | _ => none

/-- Whether an effect is a console warning. -/
def isWarn : Effect → Bool
  | Effect.warn _ => true
  | _ => false

/-- Whether an effect is a plugin call (permission check or request,
registration, or listener attachment). -/
def isPluginCall : Effect → Bool
  | Effect.checkPermissionsCall => true
  | Effect.requestPermissionsCall => true
  | Effect.registerCall => true
  | Effect.addListenerCall _ => true
  | _ => false

/-! ## Theorems for the claims -/

/-- C10: a tapped-notification event whose payload has no `data` object makes
`handleNotificationTapped` throw a `TypeError` when reading `data.type`, so the
handler performs no navigation and no analytics POST for that event. -/
theorem tapped_missing_data_throws (env : HandlerEnv) (s : ClientState)
    (ev : ActionPerformed) (h : ev.notification.data = none) :
    handleNotificationTapped env s ev = (Except.error JsError.typeError, []) := by
  simp [handleNotificationTapped, h]

/-- Witness for C10 at a concrete event with `data` undefined. -/
theorem tapped_missing_data_throws_witness :
    handleNotificationTapped ⟨"t0", Except.ok (), true⟩ mkClientState
        ⟨⟨some "Hi", some "There", none⟩⟩
      = (Except.error JsError.typeError, []) :=
  tapped_missing_data_throws ⟨"t0", Except.ok (), true⟩ mkClientState
    ⟨⟨some "Hi", some "There", none⟩⟩ rfl

/-- C2: on a non-native host `initialize()` only logs and returns: the result
is exactly the unchanged state plus one diagnostic log, so no permission check
or request happens, nothing is registered, no listener is attached, and the
ready flag of a freshly constructed client stays `false`. -/
theorem nonNative_init_no_side_effects (env : InitEnv) (s : ClientState)
    (h : env.isNative = false) :
    initClient env s
        = (s, [Effect.log "Push notifications not available on web platform"]) ∧
      isReady (initClient env mkClientState).fst = false := by
  constructor
  · simp [initClient, h]
  · simp [initClient, h, isReady, mkClientState]

/-- Witness for C2 at a concrete non-native environment. -/
theorem nonNative_init_no_side_effects_witness :
    initClient
        ⟨false, Except.ok "granted", Except.ok "granted", Except.ok (),
          fun _ => Except.ok ()⟩ mkClientState
      = (mkClientState,
          [Effect.log "Push notifications not available on web platform"]) ∧
    isReady
        (initClient
          ⟨false, Except.ok "granted", Except.ok "granted", Except.ok (),
            fun _ => Except.ok ()⟩ mkClientState).fst = false :=
  nonNative_init_no_side_effects _ mkClientState rfl

/-- C1: the `registration` listener stores the delivered token, so
`getDeviceToken()` returns it afterwards, and fires exactly one POST to the
push-token endpoint whose body carries that token, platform `"android"`, the
app version, the (possibly null) user id, and the timestamp. -/
theorem registration_stores_token_and_posts_once (env : SendEnv)
    (s : ClientState) (t : String) :
    getDeviceToken (onRegistration env s t).fst = some t ∧
      ∃ p : TokenPayload,
        (onRegistration env s t).snd.filterMap tokenPostOf = [(pushTokenURL, p)] ∧
        p.device_token = t ∧ p.platform = "android" ∧ p.app_version = "1.0.0" ∧
        p.user_id = jsOrNull (getUserInfo env.stored).fst.userId ∧
        p.timestamp = env.now := by
  refine ⟨rfl, ?_⟩
  rcases env with ⟨st, now, tf⟩
  refine ⟨{ device_token := t, platform := "android", app_version := "1.0.0",
            user_id := jsOrNull (getUserInfo st).fst.userId, timestamp := now },
      ?_, rfl, rfl, rfl, rfl, rfl⟩
  rcases tf with _ | b
  · cases st <;> simp [onRegistration, sendTokenToServer, getUserInfo, tokenPostOf]
  · cases b <;> cases st <;>
      simp [onRegistration, sendTokenToServer, getUserInfo, tokenPostOf]

/-- C7: a received notification carrying a title and a body produces a banner
element holding both strings, a scheduled self-removal after 5000 ms, and
exactly one analytics POST with action `"received"`. -/
theorem received_shows_banner (env : HandlerEnv) (s : ClientState)
    (n : PushNotificationSchema) (ti bo : String)
    (h1 : n.title = some ti) (h2 : n.body = some bo) :
    Effect.banner (some ti) (some bo) ∈ handleNotificationReceived env s n ∧
      Effect.scheduleTimeout 5000 ∈ handleNotificationReceived env s n ∧
      ∃ p : AnalyticsPayload,
        (handleNotificationReceived env s n).filterMap analyticsPostOf
            = [(analyticsURL, p)] ∧
          p.action = "received" := by
  rcases env with ⟨now, af, sp⟩
  refine ⟨?_, ?_,
      ⟨⟨"received", n.data.bind (fun d => d.notification_id),
        n.data.bind (fun d => d.type), now, s.deviceToken⟩, ?_, rfl⟩⟩ <;>
    rcases af with e | u <;> cases sp <;>
      simp [handleNotificationReceived, showInAppNotification,
        trackNotificationEvent, analyticsPostOf, h1, h2]

/-- Witness for C7 at the concrete notification `title:"Hi"`, `body:"There"`. -/
theorem received_shows_banner_witness :
    Effect.banner (some "Hi") (some "There") ∈
        handleNotificationReceived ⟨"t0", Except.ok (), true⟩ mkClientState
          ⟨some "Hi", some "There", none⟩ ∧
      Effect.scheduleTimeout 5000 ∈
        handleNotificationReceived ⟨"t0", Except.ok (), true⟩ mkClientState
          ⟨some "Hi", some "There", none⟩ ∧
      ∃ p : AnalyticsPayload,
        (handleNotificationReceived ⟨"t0", Except.ok (), true⟩ mkClientState
              ⟨some "Hi", some "There", none⟩).filterMap analyticsPostOf
            = [(analyticsURL, p)] ∧
          p.action = "received" :=
  received_shows_banner ⟨"t0", Except.ok (), true⟩ mkClientState
    ⟨some "Hi", some "There", none⟩ "Hi" "There" rfl rfl

/-- C5: tapping a notification whose data has `type = "kedai_verification"`
and `kedai_id = "42"` navigates exactly once, to the kedai-detail URL for 42,
and fires exactly one analytics POST with action `"opened"`. -/
theorem kedai_tap_navigates (env : HandlerEnv) (s : ClientState)
    (ev : ActionPerformed) (d : NotifData)
    (h1 : ev.notification.data = some d)
    (h2 : d.type = some "kedai_verification")
    (h3 : d.kedai_id = some "42") :
    (handleNotificationTapped env s ev).fst = Except.ok () ∧
      (handleNotificationTapped env s ev).snd.filterMap navOf
          = ["https://leqoehunt.my/kedai/42"] ∧
      ∃ p : AnalyticsPayload,
        (handleNotificationTapped env s ev).snd.filterMap analyticsPostOf
            = [(analyticsURL, p)] ∧
          p.action = "opened" := by
  have hroute : routeFor d = "https://leqoehunt.my/kedai/42" := by
    unfold routeFor
    rw [h2, h3]
    rfl
  rcases env with ⟨now, af, sp⟩
  refine ⟨?_, ?_,
      ⟨⟨"opened", ev.notification.data.bind (fun d => d.notification_id),
        ev.notification.data.bind (fun d => d.type), now, s.deviceToken⟩, ?_, rfl⟩⟩ <;>
    rcases af with e | u <;>
      simp [handleNotificationTapped, trackNotificationEvent, h1, hroute,
        navOf, analyticsPostOf]

/-- Witness for C5 at a concrete tapped kedai-verification notification. -/
theorem kedai_tap_navigates_witness :
    (handleNotificationTapped ⟨"t0", Except.ok (), true⟩ mkClientState
        ⟨⟨none, none, some ⟨some "kedai_verification", some "42", none, none, none⟩⟩⟩).fst
        = Except.ok () ∧
      (handleNotificationTapped ⟨"t0", Except.ok (), true⟩ mkClientState
          ⟨⟨none, none, some ⟨some "kedai_verification", some "42", none, none, none⟩⟩⟩).snd.filterMap
          navOf = ["https://leqoehunt.my/kedai/42"] ∧
      ∃ p : AnalyticsPayload,
        (handleNotificationTapped ⟨"t0", Except.ok (), true⟩ mkClientState
            ⟨⟨none, none, some ⟨some "kedai_verification", some "42", none, none, none⟩⟩⟩).snd.filterMap
            analyticsPostOf = [(analyticsURL, p)] ∧
          p.action = "opened" :=
  kedai_tap_navigates ⟨"t0", Except.ok (), true⟩ mkClientState
    ⟨⟨none, none, some ⟨some "kedai_verification", some "42", none, none, none⟩⟩⟩
    ⟨some "kedai_verification", some "42", none, none, none⟩ rfl rfl rfl

/-- C6: tapping a notification whose `data.type` is absent or not one of the
four recognized values navigates exactly once, to the home URL, and the
handler succeeds without logging any error. -/
theorem unrecognized_type_navigates_home (env : HandlerEnv) (s : ClientState)
    (ev : ActionPerformed) (d : NotifData)
    (h1 : ev.notification.data = some d)
    (h2 : ∀ t, d.type = some t →
        t ∉ (["kedai_verification", "photohunt_challenge", "business_update",
          "promotional"] : List String)) :
    (handleNotificationTapped env s ev).fst = Except.ok () ∧
      (handleNotificationTapped env s ev).snd.filterMap navOf
          = ["https://leqoehunt.my/"] ∧
      ∀ m, Effect.errorLog m ∉ (handleNotificationTapped env s ev).snd := by
  have hroute : routeFor d = "https://leqoehunt.my/" := by
    unfold routeFor
    cases hty : d.type with
    | none => rfl
    | some t =>
        have ht := h2 t hty
        simp only [List.mem_cons, List.mem_singleton, not_or] at ht
        obtain ⟨n1, n2, n3, n4⟩ := ht
        by_cases he : t = "" <;> simp [he, n1, n2, n3, n4]
  rcases env with ⟨now, af, sp⟩
  refine ⟨?_, ?_, ?_⟩ <;>
    rcases af with e | u <;>
      simp [handleNotificationTapped, trackNotificationEvent, h1, hroute, navOf]

/-- Witness for C6 at a concrete tapped notification whose data has no `type`
field. -/
theorem unrecognized_type_navigates_home_witness :
    (handleNotificationTapped ⟨"t0", Except.ok (), true⟩ mkClientState
        ⟨⟨none, none, some ⟨none, none, none, none, none⟩⟩⟩).fst = Except.ok () ∧
      (handleNotificationTapped ⟨"t0", Except.ok (), true⟩ mkClientState
          ⟨⟨none, none, some ⟨none, none, none, none, none⟩⟩⟩).snd.filterMap navOf
          = ["https://leqoehunt.my/"] ∧
      ∀ m, Effect.errorLog m ∉
        (handleNotificationTapped ⟨"t0", Except.ok (), true⟩ mkClientState
          ⟨⟨none, none, some ⟨none, none, none, none, none⟩⟩⟩).snd :=
  unrecognized_type_navigates_home ⟨"t0", Except.ok (), true⟩ mkClientState
    ⟨⟨none, none, some ⟨none, none, none, none, none⟩⟩⟩
    ⟨none, none, none, none, none⟩ rfl (fun t ht => by simp at ht)

/-- C4: on a native host, when the permission state the code acts on resolves
to anything other than `"granted"`, `initialize()` logs the denial warning,
never calls `register()`, attaches no listener, and the ready flag stays
`false`. -/
theorem permission_denied_aborts (env : InitEnv) (s : ClientState) (r : String)
    (h1 : env.isNative = true) (h2 : resolvedPerm env = Except.ok r)
    (h3 : r ≠ "granted") (h4 : s.isInitialized = false) :
    (initClient env s).fst.isInitialized = false ∧
      Effect.warn "Push notification permission denied" ∈ (initClient env s).snd ∧
      Effect.registerCall ∉ (initClient env s).snd ∧
      ∀ e, Effect.addListenerCall e ∉ (initClient env s).snd := by
  rcases env with ⟨nat, cp, rp, rr, al⟩
  subst h1
  rcases cp with ce | r0
  · exact absurd h2 (by simp [resolvedPerm])
  · by_cases hp : r0 = "prompt"
    · subst hp
      simp only [resolvedPerm, if_pos rfl] at h2
      subst h2
      simp [initClient, h3, h4]
    · simp only [resolvedPerm, if_neg hp] at h2
      rcases h2 with ⟨rfl⟩
      simp [initClient, h3, h4, hp]

/-- Witness for C4 at a concrete environment reporting `"denied"` directly. -/
theorem permission_denied_aborts_witness :
    (initClient
        ⟨true, Except.ok "denied", Except.ok "granted", Except.ok (),
          fun _ => Except.ok ()⟩ mkClientState).fst.isInitialized = false ∧
      Effect.warn "Push notification permission denied" ∈
        (initClient
          ⟨true, Except.ok "denied", Except.ok "granted", Except.ok (),
            fun _ => Except.ok ()⟩ mkClientState).snd ∧
      Effect.registerCall ∉
        (initClient
          ⟨true, Except.ok "denied", Except.ok "granted", Except.ok (),
            fun _ => Except.ok ()⟩ mkClientState).snd ∧
      ∀ e, Effect.addListenerCall e ∉
        (initClient
          ⟨true, Except.ok "denied", Except.ok "granted", Except.ok (),
            fun _ => Except.ok ()⟩ mkClientState).snd :=
  permission_denied_aborts _ mkClientState "denied" rfl rfl (by decide) rfl

/-- C3: on a native host, when `checkPermissions` reports `"prompt"`, the
request resolves `"granted"`, and the register and listener calls succeed,
`initialize()` calls `register()`, attaches the four listeners, and ends with
the ready flag `true`. -/
theorem prompt_then_granted_initializes (env : InitEnv) (s : ClientState)
    (h1 : env.isNative = true)
    (h2 : env.checkPerm = Except.ok "prompt")
    (h3 : env.requestPerm = Except.ok "granted")
    (h4 : env.registerRes = Except.ok ())
    (h5 : ∀ e ∈ listenerEvents, env.addListenerRes e = Except.ok ()) :
    (initClient env s).fst.isInitialized = true ∧
      Effect.registerCall ∈ (initClient env s).snd ∧
      ∀ e ∈ listenerEvents, Effect.addListenerCall e ∈ (initClient env s).snd := by
  have a1 := h5 "registration" (by simp [listenerEvents])
  have a2 := h5 "registrationError" (by simp [listenerEvents])
  have a3 := h5 "pushNotificationReceived" (by simp [listenerEvents])
  have a4 := h5 "pushNotificationActionPerformed" (by simp [listenerEvents])
  have hal : attachListeners env.addListenerRes
      ["registration", "registrationError", "pushNotificationReceived",
        "pushNotificationActionPerformed"] =
      (true,
        [Effect.addListenerCall "registration",
          Effect.addListenerCall "registrationError",
          Effect.addListenerCall "pushNotificationReceived",
          Effect.addListenerCall "pushNotificationActionPerformed"]) := by
    simp [attachListeners, a1, a2, a3, a4]
  refine ⟨?_, ?_, ?_⟩ <;>
    simp [initClient, h1, h2, h3, h4, hal, listenerEvents]

/-- Witness for C3 at a concrete all-succeeding environment. -/
theorem prompt_then_granted_initializes_witness :
    (initClient
        ⟨true, Except.ok "prompt", Except.ok "granted", Except.ok (),
          fun _ => Except.ok ()⟩ mkClientState).fst.isInitialized = true ∧
      Effect.registerCall ∈
        (initClient
          ⟨true, Except.ok "prompt", Except.ok "granted", Except.ok (),
            fun _ => Except.ok ()⟩ mkClientState).snd ∧
      ∀ e ∈ listenerEvents, Effect.addListenerCall e ∈
        (initClient
          ⟨true, Except.ok "prompt", Except.ok "granted", Except.ok (),
            fun _ => Except.ok ()⟩ mkClientState).snd :=
  prompt_then_granted_initializes _ mkClientState rfl rfl rfl rfl
    (fun _ _ => rfl)

/-- C8 counterexample: with no stored user info at all (`getItem` returns null
in both stores) and a successful fetch, the token-forward emits no warning of
any kind — refuting that an absent stored value is "logged as a warning" —
while the POST still goes out with `user_id` null. -/
theorem absent_user_no_warning_cex :
    (sendTokenToServer ⟨StoredUser.absent, "t0", Except.ok true⟩ "T1").countP isWarn
        = 0 ∧
      (sendTokenToServer ⟨StoredUser.absent, "t0", Except.ok true⟩ "T1").filterMap
          tokenPostOf
        = [(pushTokenURL, ⟨"T1", "android", "1.0.0", none, "t0"⟩)] := by
  constructor <;> rfl

/-- C8 (amended): an absent, unparseable, or `userId`-less stored user record
is treated as "no user": the token POST is still sent with `user_id` null; the
parse-failure warning is logged exactly when `JSON.parse` throws, while an
absent or `userId`-less record is handled silently. -/
theorem user_info_fallback (env : SendEnv) (t : String)
    (h : env.stored = StoredUser.absent ∨ env.stored = StoredUser.malformed ∨
        env.stored = StoredUser.parsed none) :
    (∃ p : TokenPayload,
        (sendTokenToServer env t).filterMap tokenPostOf = [(pushTokenURL, p)] ∧
          p.device_token = t ∧ p.user_id = none) ∧
      (env.stored = StoredUser.malformed →
        Effect.warn "Could not parse user info:" ∈ sendTokenToServer env t) ∧
      (env.stored = StoredUser.absent ∨ env.stored = StoredUser.parsed none →
        Effect.warn "Could not parse user info:" ∉ sendTokenToServer env t) := by
  rcases env with ⟨st, now, tf⟩
  refine ⟨⟨⟨t, "android", "1.0.0", none, now⟩, ?_, rfl, rfl⟩, ?_, ?_⟩ <;>
    rcases h with rfl | rfl | rfl <;> rcases tf with e | b <;> try cases b
  all_goals
    simp [sendTokenToServer, getUserInfo, jsOrNull, tokenPostOf]

/-- Witness for the amended C8 at a concrete malformed stored record. -/
theorem user_info_fallback_witness :
    (∃ p : TokenPayload,
        (sendTokenToServer ⟨StoredUser.malformed, "t0", Except.ok true⟩ "T1").filterMap
            tokenPostOf = [(pushTokenURL, p)] ∧
          p.device_token = "T1" ∧ p.user_id = none) ∧
      ((⟨StoredUser.malformed, "t0", Except.ok true⟩ : SendEnv).stored
            = StoredUser.malformed →
        Effect.warn "Could not parse user info:" ∈
          sendTokenToServer ⟨StoredUser.malformed, "t0", Except.ok true⟩ "T1") ∧
      ((⟨StoredUser.malformed, "t0", Except.ok true⟩ : SendEnv).stored
              = StoredUser.absent ∨
          (⟨StoredUser.malformed, "t0", Except.ok true⟩ : SendEnv).stored
              = StoredUser.parsed none →
        Effect.warn "Could not parse user info:" ∉
          sendTokenToServer ⟨StoredUser.malformed, "t0", Except.ok true⟩ "T1") :=
  user_info_fallback ⟨StoredUser.malformed, "t0", Except.ok true⟩ "T1"
    (Or.inr (Or.inl rfl))

/-- If every sequential listener attachment reports success, then each named
event's attachment succeeded. -/
theorem attachListeners_all_ok (res : String → Except JsError Unit) :
    ∀ l : List String, (attachListeners res l).fst = true →
      ∀ e ∈ l, res e = Except.ok () := by
  intro l
  induction l with
  | nil => intro _ e he; cases he
  | cons name rest ih =>
      intro hfst e he
      rcases hr : res name with er | u
      · rw [attachListeners, hr] at hfst
        cases hfst
      · rw [attachListeners, hr] at hfst
        cases he with
        | head => cases u; exact hr
        | tail _ h2 => exact ih hfst e h2

/-- C9: the ready flag is `false` at construction; after `initialize()` it is
`true` exactly when it already was or every step succeeded (native platform,
permission granted, `register()` ok, and — as the third conjunct makes
explicit — all four listener attachments ok); and the `registration` callback
(the only other state-writing operation; the two notification handlers and the
analytics/navigation helpers return no state at all) never changes it.  In
particular the flag never transitions from `true` back to `false`. -/
theorem ready_flag_lifecycle :
    mkClientState.isInitialized = false ∧
      (∀ env s, (initClient env s).fst.isInitialized
          = (s.isInitialized || initSuccess env)) ∧
      (∀ env : InitEnv, initSuccess env = true →
        ∀ e ∈ listenerEvents, env.addListenerRes e = Except.ok ()) ∧
      (∀ env s t, (onRegistration env s t).fst.isInitialized = s.isInitialized) := by
  refine ⟨rfl, ?_, ?_, fun env s t => rfl⟩
  · intro env s
    rcases env with ⟨nat, cp, rp, rr, al⟩
    cases nat
    · simp [initClient, initSuccess]
    · rcases cp with ce | r0
      · simp [initClient, initSuccess, resolvedPerm]
      · by_cases hp : r0 = "prompt"
        · subst hp
          rcases rp with re | r
          · simp [initClient, initSuccess, resolvedPerm]
          · by_cases hg : r = "granted"
            · subst hg
              rcases rr with ee | u
              · simp [initClient, initSuccess, resolvedPerm]
              · by_cases hf : (attachListeners al listenerEvents).fst = true <;>
                  simp [initClient, initSuccess, resolvedPerm, hf]
            · simp [initClient, initSuccess, resolvedPerm, hg]
        · rcases rr with ee | u
          · by_cases hg : r0 = "granted" <;>
              simp [initClient, initSuccess, resolvedPerm, hp, hg]
          · by_cases hg : r0 = "granted"
            · subst hg
              by_cases hf : (attachListeners al listenerEvents).fst = true <;>
                simp [initClient, initSuccess, resolvedPerm, hp, hf]
            · simp [initClient, initSuccess, resolvedPerm, hp, hg]
  · intro env hs
    unfold initSuccess at hs
    rcases h1 : resolvedPerm env with e | r
    · rw [h1] at hs; simp at hs
    · rw [h1] at hs
      rcases h2 : env.registerRes with e | u
      · rw [h2] at hs; simp at hs
      · rw [h2] at hs
        simp only [Bool.and_eq_true, decide_eq_true_eq] at hs
        exact attachListeners_all_ok env.addListenerRes listenerEvents hs.2.2

/-- Witness for C9 at a concrete all-succeeding environment, discharging the
`initSuccess` hypothesis of the third conjunct. -/
theorem ready_flag_lifecycle_witness :
    initSuccess
        ⟨true, Except.ok "granted", Except.ok "granted", Except.ok (),
          fun _ => Except.ok ()⟩ = true ∧
      (⟨true, Except.ok "granted", Except.ok "granted", Except.ok (),
          fun _ => Except.ok ()⟩ : InitEnv).addListenerRes "registration"
        = Except.ok () ∧
      (initClient
          ⟨true, Except.ok "granted", Except.ok "granted", Except.ok (),
            fun _ => Except.ok ()⟩ mkClientState).fst.isInitialized
        = (mkClientState.isInitialized ||
            initSuccess
              ⟨true, Except.ok "granted", Except.ok "granted", Except.ok (),
                fun _ => Except.ok ()⟩) :=
  ⟨rfl,
    ready_flag_lifecycle.2.2.1
      ⟨true, Except.ok "granted", Except.ok "granted", Except.ok (),
        fun _ => Except.ok ()⟩
      rfl "registration" (by simp [listenerEvents]),
    ready_flag_lifecycle.2.1 _ mkClientState⟩

end LeqoeHunt
